import Mathlib

/-!
The Hypv watch-party hub (`server.js`).

A shallow embedding of the WebSocket relay and of the two session endpoints of
`server.js`, followed by the properties established about them.

Conventions of the embedding:

* a WebSocket object is identified by a natural number (`ConnId`); JavaScript
  `Set`s of sockets are insertion-ordered duplicate-free lists;
* `JSON.parse` and the two `axios` calls are builtins / external services, so
  they are parameters of the handlers;
* every handler returns the new hub state together with the list of
  `client.send` calls it made, in order. The payload recorded for a send is the
  JavaScript object handed to `JSON.stringify`.
-/

namespace Hypv

/-! ## Data model -/

/-- Values that `JSON.parse` can return. -/
inductive Json where
  | null : Json
  | bool (b : Bool) : Json
  | num (n : Int) : Json
  | str (s : String) : Json
  | arr (xs : List Json) : Json
  | obj (kvs : List (String × Json)) : Json

/-- A thrown JavaScript exception (its message). -/
abbrev JsError := String

/-- Identity of a WebSocket object. -/
abbrev ConnId := Nat

/-- The constant `WebSocket.OPEN`. -/
def OPEN : Nat := 1

/-- The object `{ sessionId: '...', embedUrl: '...' }` kept in
`activeHyperbeamSession`. -/
structure Session where
  sessionId : String
  embedUrl : String
deriving DecidableEq, Repr

/-- The mutable state of the server process. -/
structure Hub where
  /-- `let activeHyperbeamSession = null` -/
  activeHyperbeamSession : Option Session
  /-- `const clients = new Set()` -/
  clients : List ConnId
  /-- `wss.clients`, the set kept by the WebSocket server itself -/
  wssClients : List ConnId
  /-- `client.readyState` of every socket -/
  readyState : ConnId → Nat

/-- One `client.send(JSON.stringify(payload))` call. -/
structure Send where
  target : ConnId
  payload : Json

/-- The state at process start: no session, no client. -/
def Hub.initial : Hub :=
  ⟨none, [], [], fun _ => 0⟩

/-! ## JavaScript helpers -/

/-- `Set.prototype.add`. -/
def setAdd (s : List ConnId) (x : ConnId) : List ConnId :=
  if x ∈ s then s else s ++ [x]

/-- `Set.prototype.delete`. -/
def setDelete (s : List ConnId) (x : ConnId) : List ConnId :=
  s.filter (fun y => y != x)

/-- Property read `v.key` for the keys `type`, `data` and `embedUrl`: a `TypeError` on
`null`, the own property on an object, `undefined` (`none`) on every other
value, none of whose prototypes defines these keys. -/
def getProp (v : Json) (key : String) : Except JsError (Option Json) :=
  match v with
  | .null => .error "TypeError: Cannot read properties of null"
  | .obj kvs => .ok (kvs.lookup key)
  | _ => .ok none

/-- The test `!v` on a JavaScript value. -/
def jsFalsy : Option Json → Bool
  | none => true
  | some .null => true
  | some (.bool b) => !b
  | some (.num n) => n == 0
  | some (.str s) => s == ""
  | some (.arr _) => false
  | some (.obj _) => false

mutual
/-- The string conversion of a template literal `${v}`: a string is itself, an
array is its elements joined by commas, any object is `[object Object]`. A
number `num n` is printed in decimal, as JavaScript prints an integer below
`10^21` in magnitude. -/
def jsToString : Json → String
  | .null => "null"
  | .bool b => if b then "true" else "false"
  | .num n => toString n
  | .str s => s
  | .arr xs => jsJoin xs
  | .obj _ => "[object Object]"
/-- `xs.join(',')`: an element that is `null` contributes the empty string. -/
def jsJoin : List Json → String
  | [] => ""
  | x :: rest =>
    let head := match x with
      | .null => ""
      | y => jsToString y
    match rest with
    | [] => head
    | _ :: _ => head ++ "," ++ jsJoin rest
end

/-- The comparison `s === v` of a string with a JavaScript value: true only
for the same string. -/
def strictEqString (s : String) : Json → Bool
  | .str t => s == t
  | _ => false

/-- The string a `switch` scrutinee is strictly equal to, if any. -/
def strictString : Option Json → Option String
  | some (.str s) => some s
  | _ => none

/-- The object literal `{ type: ty, data: data }` as `JSON.stringify` sees it: a
property whose value is `undefined` is left out. -/
def envelope (ty : String) (data : Option Json) : Json :=
  match data with
  | some d => .obj [("type", .str ty), ("data", d)]
  | none => .obj [("type", .str ty)]

/-- The object `activeHyperbeamSession` as a JSON value. -/
def Session.toJson (s : Session) : Json :=
  .obj [("sessionId", .str s.sessionId), ("embedUrl", .str s.embedUrl)]

/-- A loop `wss.clients.forEach(client => { if (cond(client)) client.send(payload) })`. -/
def forEachSend (cs : List ConnId) (cond : ConnId → Bool) (payload : Json) : List Send :=
  (cs.filter cond).map (fun client => ⟨client, payload⟩)

/-! ## WebSocket handlers -/

/-- The `connection` event: the WebSocket server has put `ws` (then `OPEN`) into
`wss.clients`, and the handler of `wss.on('connection', ...)` runs. -/
def onConnection (h : Hub) (ws : ConnId) : Hub × List Send :=
  let h1 : Hub := ⟨h.activeHyperbeamSession, setAdd h.clients ws, setAdd h.wssClients ws,
    fun c => if c = ws then OPEN else h.readyState c⟩
  match h1.activeHyperbeamSession with
  | some s => (h1, [⟨ws, envelope "session_info" (some s.toJson)⟩])
  | none => (h1, [])

/-- The body of the `try` block of `ws.on('message', ...)`. -/
def onMessageTry (parse : String → Except JsError Json) (h : Hub) (ws : ConnId)
    (message : String) : Except JsError (List Send) := do
  let parsedMessage ← parse message
  let ty ← getProp parsedMessage "type"
  match strictString ty with
  | some "chat_message" =>
    let data ← getProp parsedMessage "data"
    pure (forEachSend h.wssClients (fun client => h.readyState client == OPEN)
      (envelope "chat_message" data))
  | some "mouse_position" =>
    let data ← getProp parsedMessage "data"
    pure (forEachSend h.wssClients (fun client => client != ws && h.readyState client == OPEN)
      (envelope "mouse_position" data))
  | _ => pure []

/-- The handler `ws.on('message', ...)` of socket `ws`: the `try` block, and a
`catch` that only logs. -/
def onMessage (parse : String → Except JsError Json) (h : Hub) (ws : ConnId)
    (message : String) : Hub × List Send :=
  match onMessageTry parse h ws message with
  | .ok sends => (h, sends)
  | .error _ => (h, [])

/-- The `close` event of socket `ws`: the WebSocket server drops it from
`wss.clients`, and the handler `ws.on('close', ...)` deletes it from `clients`. -/
def onClose (h : Hub) (ws : ConnId) : Hub :=
  ⟨h.activeHyperbeamSession, setDelete h.clients ws, setDelete h.wssClients ws,
    fun c => if c = ws then 3 else h.readyState c⟩

/-! ## Session endpoints -/

/-- The fields `{ vmId, embedUrl }` read from `response.data` of the create call. -/
structure VmData where
  vmId : String
  embedUrl : String
deriving DecidableEq, Repr

/-- What a handler passes to `res.status(..).json(..)`; `res.json` alone sends
status 200. -/
structure Response where
  status : Nat
  success : Bool
  sessionId : Option String
  embedUrl : Option String
  message : Option String
  error : Option String
deriving DecidableEq, Repr

/-- A request made to the provisioning service, with the answer it got. -/
inductive ProvCall where
  | delete (sessionId : String) (ok : Bool) : ProvCall
  | post (created : Option VmData) : ProvCall
deriving DecidableEq, Repr

/-- What running an endpoint handler to completion leaves behind. -/
structure Outcome where
  hub : Hub
  sends : List Send
  res : Response
  calls : List ProvCall

/-- The response `res.status(status).json({ success: false, error: msg })`. -/
def failure (status : Nat) (msg : String) : Response :=
  ⟨status, false, none, none, none, some msg⟩

/-- The hub with `activeHyperbeamSession` assigned. -/
def Hub.setSession (h : Hub) (s : Option Session) : Hub :=
  ⟨s, h.clients, h.wssClients, h.readyState⟩

/-- The part of `app.post('/api/create-session')` from `axios.post` on, entered
with hub `h` after the provisioning calls `calls`. -/
def createSessionPost (axiosPost : Except JsError VmData) (h : Hub) (calls : List ProvCall) :
    Outcome :=
  match axiosPost with
  | .error _ =>
    ⟨h, [], failure 500 "Falha ao criar sessão Hyperbeam.", calls ++ [.post none]⟩
  | .ok d =>
    let session : Session := ⟨d.vmId, d.embedUrl⟩
    let h1 := h.setSession (some session)
    ⟨h1,
     forEachSend h1.wssClients (fun client => h1.readyState client == OPEN)
       (envelope "session_info" (some session.toJson)),
     ⟨200, true, some d.vmId, some d.embedUrl, none, none⟩,
     calls ++ [.post (some d)]⟩

/-- The handler `app.post('/api/create-session')`, run to completion.
`axiosDelete id` is the answer of `DELETE /vm/id`, `axiosPost` that of
`POST /vm`; a rejected promise is an `error`. -/
def createSession (axiosDelete : String → Except JsError Unit)
    (axiosPost : Except JsError VmData) (h : Hub) : Outcome :=
  match h.activeHyperbeamSession with
  | some s =>
    match axiosDelete s.sessionId with
    | .error _ =>
      ⟨h, [], failure 500 "Falha ao criar sessão Hyperbeam.", [.delete s.sessionId false]⟩
    | .ok _ =>
      createSessionPost axiosPost (h.setSession none) [.delete s.sessionId true]
  | none => createSessionPost axiosPost h []

/-- The test `!s` on a value that is a string or `undefined`. -/
def falsy : Option String → Bool
  | none => true
  | some s => s == ""

/-- The handler `app.post('/api/destroy-session')`, run to completion, for a
request body whose `sessionId` is the JavaScript value `sessionId` (`none` when
the body has no such property). The identifier asked of the provisioning
service is the text `${sessionId}` of the DELETE URL. -/
def destroySession (axiosDelete : String → Except JsError Unit)
    (sessionId : Option Json) (h : Hub) : Outcome :=
  match sessionId with
  | none => ⟨h, [], failure 400 "ID da sessão é necessário.", []⟩
  | some v =>
    if jsFalsy (some v) then ⟨h, [], failure 400 "ID da sessão é necessário.", []⟩
    else
      match axiosDelete (jsToString v) with
      | .error _ =>
        ⟨h, [], failure 500 "Falha ao destruir sessão Hyperbeam.",
          [.delete (jsToString v) false]⟩
      | .ok _ =>
        let ok : Response :=
          ⟨200, true, none, none, some ("Sessão " ++ jsToString v ++ " destruída."), none⟩
        match h.activeHyperbeamSession with
        | some s =>
          if strictEqString s.sessionId v then
            let h1 := h.setSession none
            ⟨h1,
             forEachSend h1.wssClients (fun client => h1.readyState client == OPEN)
               (envelope "session_destroyed" none),
             ok, [.delete (jsToString v) true]⟩
          else ⟨h, [], ok, [.delete (jsToString v) true]⟩
        | none => ⟨h, [], ok, [.delete (jsToString v) true]⟩

/-! ## The hub with its provisioning service -/

/-- The provisioning service seen as the set of session identifiers it holds
alive: a successful create adds the identifier it returned, a successful
teardown removes the identifier it was given, a failed call changes nothing. -/
def applyCall (live : List String) : ProvCall → List String
  | .delete sid true => live.filter (fun x => x != sid)
  | .delete _ false => live
  | .post (some d) => if d.vmId ∈ live then live else d.vmId :: live
  | .post none => live

/-- The hub together with the live sessions of the provisioning service. -/
structure World where
  hub : Hub
  live : List String

/-- The world at process start. -/
def World.initial : World := ⟨Hub.initial, []⟩

/-- The events of the server that are followed here, each handler run to
completion. The answers of the provisioning service are part of the event:
whether a teardown is accepted, and the `{ vmId, embedUrl }` of a created
session, two strings. The `sessionId` of a destroy request is any JavaScript
value a JSON body can hold, or `none` when the body has none. -/
inductive Event where
  | connection (ws : ConnId) : Event
  | close (ws : ConnId) : Event
  | message (ws : ConnId) (message : String) : Event
  | transport (ws : ConnId) (readyState : Nat) : Event
  | createSession (deleteOk : Bool) (created : Option VmData) : Event
  | destroySession (sessionId : Option Json) (deleteOk : Bool) : Event

/-- The event is not a destroy request whose `sessionId` is a value other than
a string. -/
def Event.stringRequest : Event → Prop
  | .destroySession (some (.str _)) _ => True
  | .destroySession (some _) _ => False
  | _ => True

/-- An answer of `axios.delete` from its success flag. -/
def deleteAnswer (ok : Bool) : String → Except JsError Unit :=
  fun _ => if ok then .ok () else .error "Request failed"

/-- An answer of `axios.post` from the created session, if any. -/
def postAnswer : Option VmData → Except JsError VmData
  | some d => .ok d
  | none => .error "Request failed"

/-- One event applied to the world. -/
def step (parse : String → Except JsError Json) (w : World) : Event → World
  | .connection ws => ⟨(onConnection w.hub ws).1, w.live⟩
  | .close ws => ⟨onClose w.hub ws, w.live⟩
  | .message ws m => ⟨(onMessage parse w.hub ws m).1, w.live⟩
  | .transport ws st =>
    ⟨⟨w.hub.activeHyperbeamSession, w.hub.clients, w.hub.wssClients,
      fun c => if c = ws then st else w.hub.readyState c⟩, w.live⟩
  | .createSession dok created =>
    let o := createSession (deleteAnswer dok) (postAnswer created) w.hub
    ⟨o.hub, o.calls.foldl applyCall w.live⟩
  | .destroySession sid dok =>
    let o := destroySession (deleteAnswer dok) sid w.hub
    ⟨o.hub, o.calls.foldl applyCall w.live⟩

/-- A sequence of events applied from a world. -/
def run (parse : String → Except JsError Json) (w : World) (es : List Event) : World :=
  es.foldl (step parse) w

/-- The store is none or holds a session the provisioning service has alive. -/
def storeLive (w : World) : Prop :=
  match w.hub.activeHyperbeamSession with
  | none => True
  | some s => s.sessionId ∈ w.live

/-! ## The client (`frontend/app.js`) -/

/-- The React state of `App` that the WebSocket handler and `destroyVm` read
and write. -/
structure ClientState where
  /-- `hyperbeamSessionUrl`, a JavaScript value; `none` is `undefined` -/
  hyperbeamSessionUrl : Option Json
  /-- `isSessionActive` -/
  isSessionActive : Bool
  /-- `chatMessages` -/
  chatMessages : List (Option Json)

/-- The state of `App` at mount: `useState('')`, `useState(false)`, `useState([])`. -/
def ClientState.initial : ClientState := ⟨some (.str ""), false, []⟩

/-- The chat entry `{ sender: 'Sistema', message: message }`. -/
def systemMessage (message : String) : Option Json :=
  some (.obj [("sender", .str "Sistema"), ("message", .str message)])

/-- The update `setChatMessages(prev => [...prev, { sender: 'Sistema', message }])`. -/
def ClientState.say (st : ClientState) (message : String) : ClientState :=
  ⟨st.hyperbeamSessionUrl, st.isSessionActive, st.chatMessages ++ [systemMessage message]⟩

/-- Property read `v.key` on a value that may be `undefined`, where the read is
a `TypeError` as it is on `null`. -/
def getPropOf (v : Option Json) (key : String) : Except JsError (Option Json) :=
  match v with
  | none => .error "TypeError: Cannot read properties of undefined"
  | some j => getProp j key

/-- The body of the `try` block of `ws.current.onmessage`. -/
def clientOnMessageTry (parse : String → Except JsError Json) (st : ClientState)
    (data : String) : Except JsError ClientState := do
  let parsedMessage ← parse data
  let ty ← getProp parsedMessage "type"
  match strictString ty with
  | some "chat_message" =>
    let d ← getProp parsedMessage "data"
    pure ⟨st.hyperbeamSessionUrl, st.isSessionActive, st.chatMessages ++ [d]⟩
  | some "mouse_position" => pure st
  | some "session_info" =>
    let d ← getProp parsedMessage "data"
    let embedUrl ← getPropOf d "embedUrl"
    pure ⟨embedUrl, true, st.chatMessages ++ [systemMessage "Sessão Hyperbeam carregada."]⟩
  | some "session_destroyed" =>
    pure ⟨some (.str ""), false, st.chatMessages ++ [systemMessage "Sessão Hyperbeam encerrada."]⟩
  | _ => pure st

/-- The handler `ws.current.onmessage` for an event whose `data` is `data`: the
`try` block, and a `catch` that only logs. -/
def clientOnMessage (parse : String → Except JsError Json) (st : ClientState)
    (data : String) : ClientState :=
  match clientOnMessageTry parse st data with
  | .ok st1 => st1
  | .error _ => st

/-- The array `cs.split(sep)` for the characters `cs` of a string and a
one-character separator. -/
def splitChars (sep : Char) : List Char → List (List Char)
  | [] => [[]]
  | c :: cs =>
    if c = sep then [] :: splitChars sep cs
    else
      match splitChars sep cs with
      | seg :: rest => (c :: seg) :: rest
      | [] => [[c]]

/-- The value `url.split('/').pop()`; `none` is the `undefined` of an empty
array. -/
def splitPop (url : String) : Option String :=
  ((splitChars '/' url.toList).getLast?).map String.mk

/-- What `destroyVm` reads of the answer to its `fetch`: `response.ok`, whether
`data.success` is truthy, and the text of `data.error`. -/
structure FetchReply where
  ok : Bool
  success : Bool
  error : String

/-- The function `destroyVm`, run to completion in state `st`. `fetchDestroy id`
is the outcome of the `POST /api/destroy-session` with body `{ sessionId: id }`.
The result is the new state with the `sessionId` of the request sent, if one
was sent; an `error` is an exception thrown outside the `try` block. -/
def destroyVm (fetchDestroy : String → Except JsError FetchReply) (st : ClientState) :
    Except JsError (ClientState × Option String) :=
  if jsFalsy st.hyperbeamSessionUrl then
    .ok (st.say "Nenhuma sessão ativa para destruir.", none)
  else
    match st.hyperbeamSessionUrl with
    | some (.str url) =>
      match splitPop url with
      | none => .ok (st.say "Não foi possível obter o ID da sessão para destruir.", none)
      | some sessionId =>
        if falsy (some sessionId) then
          .ok (st.say "Não foi possível obter o ID da sessão para destruir.", none)
        else
          match fetchDestroy sessionId with
          | .ok reply =>
            if reply.ok && reply.success then
              .ok (st.say ("Requisição para destruir sessão " ++ sessionId ++ " enviada."),
                some sessionId)
            else
              .ok (st.say ("Erro ao destruir VM: " ++ reply.error), some sessionId)
          | .error _ => .ok (st.say "Erro de rede ao destruir VM.", some sessionId)
    | _ => .error "TypeError: hyperbeamSessionUrl.split is not a function"

/-! ## Sample data -/

/-- Three registered sockets, of which 1 and 3 are open and 2 is closing. -/
def sampleHub : Hub :=
  ⟨none, [1, 2, 3], [1, 2, 3], fun c => if c = 2 then 2 else OPEN⟩

/-- A session descriptor. -/
def sampleSession : Session := ⟨"vm-1", "https://host/embed/vm-1"⟩

/-- The hub `sampleHub` holding `sampleSession`. -/
def sampleActiveHub : Hub := sampleHub.setSession (some sampleSession)

/-- A parsed chat message. -/
def sampleChat : Json :=
  .obj [("type", .str "chat_message"), ("data", .obj [("sender", .str "ana"), ("message", .str "oi")])]

/-- A parsed pointer message. -/
def sampleMouse : Json :=
  .obj [("type", .str "mouse_position"), ("data", .obj [("x", .num 3), ("y", .num 4)])]

/-- A parser that knows three texts; every other text is a syntax error. -/
def sampleParse (message : String) : Except JsError Json :=
  if message = "chat" then .ok sampleChat
  else if message = "mouse" then .ok sampleMouse
  else if message = "null" then .ok .null
  else if message = "info" then .ok (.obj [("type", .str "session_info")])
  else .error "SyntaxError"

/-- A session as a provisioning service may return it: the embed URL ends in a
path segment and a query string, not in the identifier. -/
def sampleVm : VmData := ⟨"52f968cb", "https://abc.hyperbeam.com/AAEjVhZj?token=xyz"⟩

/-- A client-side parser that knows the texts of two `session_info` messages:
the one for `sampleVm` and the one for `sampleSession`. -/
def sampleClientParse (data : String) : Except JsError Json :=
  if data = "session_info sampleVm" then
    .ok (envelope "session_info" (some (Session.toJson ⟨sampleVm.vmId, sampleVm.embedUrl⟩)))
  else if data = "session_info sampleSession" then
    .ok (envelope "session_info" (some sampleSession.toJson))
  else .error "SyntaxError"

/-- A destroy endpoint that answers every request with success. -/
def sampleFetch : String → Except JsError FetchReply :=
  fun _ => .ok ⟨true, true, ""⟩

/-! ## Fan-out lemmas -/

theorem forEachSend_targets (cs : List ConnId) (cond : ConnId → Bool) (payload : Json) :
    (forEachSend cs cond payload).map Send.target = cs.filter cond := by
  simp [forEachSend, Function.comp_def]

theorem forEachSend_payload (cs : List ConnId) (cond : ConnId → Bool) (payload : Json)
    (s : Send) (hs : s ∈ forEachSend cs cond payload) : s.payload = payload := by
  simp only [forEachSend, List.mem_map] at hs
  obtain ⟨c, _, rfl⟩ := hs
  rfl

theorem count_filter_nodup (cs : List ConnId) (cond : ConnId → Bool) (hnd : cs.Nodup)
    (c : ConnId) :
    (cs.filter cond).count c = if c ∈ cs ∧ cond c = true then 1 else 0 := by
  rw [List.count_eq_of_nodup (hnd.filter _)]
  simp [List.mem_filter]

theorem forEachSend_count (cs : List ConnId) (cond : ConnId → Bool) (payload : Json)
    (hnd : cs.Nodup) (c : ConnId) :
    ((forEachSend cs cond payload).map Send.target).count c
      = if c ∈ cs ∧ cond c = true then 1 else 0 := by
  rw [forEachSend_targets, count_filter_nodup cs cond hnd]

theorem getProp_type_obj (v : Json) (t : Json) (h : getProp v "type" = .ok (some t)) :
    ∃ kvs, v = .obj kvs := by
  cases v <;> simp [getProp] at h
  exact ⟨_, rfl⟩

/-! ## Relay of chat and pointer messages -/

theorem onMessage_chat (parse : String → Except JsError Json) (h : Hub) (ws : ConnId)
    (message : String) (kvs : List (String × Json))
    (hparse : parse message = .ok (.obj kvs))
    (htype : kvs.lookup "type" = some (.str "chat_message")) :
    onMessage parse h ws message
      = (h, forEachSend h.wssClients (fun client => h.readyState client == OPEN)
          (envelope "chat_message" (kvs.lookup "data"))) := by
  simp [onMessage, onMessageTry, hparse, getProp, htype, strictString, bind, Except.bind, pure,
    Except.pure]

theorem onMessage_mouse (parse : String → Except JsError Json) (h : Hub) (ws : ConnId)
    (message : String) (kvs : List (String × Json))
    (hparse : parse message = .ok (.obj kvs))
    (htype : kvs.lookup "type" = some (.str "mouse_position")) :
    onMessage parse h ws message
      = (h, forEachSend h.wssClients
          (fun client => client != ws && h.readyState client == OPEN)
          (envelope "mouse_position" (kvs.lookup "data"))) := by
  simp [onMessage, onMessageTry, hparse, getProp, htype, strictString, bind, Except.bind, pure,
    Except.pure]

/-- C1: an inbound message that parses to a value of type `chat_message` is
sent exactly once to every registered socket that is `OPEN`, the sender
included, and to no other socket; every message sent is the object
`{type: 'chat_message', data}` whose `data` is the `data` property of the
inbound object as it is (the property is absent when the inbound object has
none), and the hub state is not changed. -/
theorem chat_message_fan_out (parse : String → Except JsError Json) (h : Hub) (ws : ConnId)
    (message : String) (v : Json)
    (hnd : h.wssClients.Nodup)
    (hparse : parse message = .ok v)
    (htype : getProp v "type" = .ok (some (.str "chat_message"))) :
    ∃ kvs, v = .obj kvs ∧ getProp v "data" = .ok (kvs.lookup "data") ∧
      (∀ c, ((onMessage parse h ws message).2.map Send.target).count c
          = if c ∈ h.wssClients ∧ h.readyState c = OPEN then 1 else 0) ∧
      (ws ∈ h.wssClients → h.readyState ws = OPEN →
          ((onMessage parse h ws message).2.map Send.target).count ws = 1) ∧
      (∀ d, kvs.lookup "data" = some d → ∀ s ∈ (onMessage parse h ws message).2,
          s.payload = .obj [("type", .str "chat_message"), ("data", d)]) ∧
      (kvs.lookup "data" = none → ∀ s ∈ (onMessage parse h ws message).2,
          s.payload = .obj [("type", .str "chat_message")]) ∧
      (onMessage parse h ws message).1 = h := by
  obtain ⟨kvs, rfl⟩ := getProp_type_obj v _ htype
  have htype1 : kvs.lookup "type" = some (.str "chat_message") := by
    simpa [getProp] using htype
  have hrun := onMessage_chat parse h ws message kvs hparse htype1
  have hcount : ∀ c, ((onMessage parse h ws message).2.map Send.target).count c
      = if c ∈ h.wssClients ∧ h.readyState c = OPEN then 1 else 0 := by
    intro c
    rw [hrun]
    simp only [forEachSend_count _ _ _ hnd, beq_iff_eq]
  refine ⟨kvs, rfl, rfl, hcount, ?_, ?_, ?_, ?_⟩
  · intro hmem hopen
    rw [hcount ws, if_pos ⟨hmem, hopen⟩]
  · intro d hd s hs
    rw [hrun, hd] at hs
    exact forEachSend_payload _ _ _ s hs
  · intro hd s hs
    rw [hrun, hd] at hs
    exact forEachSend_payload _ _ _ s hs
  · rw [hrun]

/-- Witness of C1: socket 1 sends a chat message to the sample hub. -/
theorem chat_message_fan_out_witness :
    ∃ kvs, sampleChat = .obj kvs ∧ getProp sampleChat "data" = .ok (kvs.lookup "data") ∧
      (∀ c, ((onMessage sampleParse sampleHub 1 "chat").2.map Send.target).count c
          = if c ∈ sampleHub.wssClients ∧ sampleHub.readyState c = OPEN then 1 else 0) ∧
      ((1 : ConnId) ∈ sampleHub.wssClients → sampleHub.readyState 1 = OPEN →
          ((onMessage sampleParse sampleHub 1 "chat").2.map Send.target).count 1 = 1) ∧
      (∀ d, kvs.lookup "data" = some d → ∀ s ∈ (onMessage sampleParse sampleHub 1 "chat").2,
          s.payload = .obj [("type", .str "chat_message"), ("data", d)]) ∧
      (kvs.lookup "data" = none → ∀ s ∈ (onMessage sampleParse sampleHub 1 "chat").2,
          s.payload = .obj [("type", .str "chat_message")]) ∧
      (onMessage sampleParse sampleHub 1 "chat").1 = sampleHub :=
  chat_message_fan_out sampleParse sampleHub 1 "chat" sampleChat (by decide) rfl rfl

theorem length_filter_skip (cs : List ConnId) (cond : ConnId → Bool) (ws : ConnId)
    (hnd : cs.Nodup) (hmem : ws ∈ cs) (hcond : cond ws = true) :
    (cs.filter (fun client => client != ws && cond client)).length + 1
      = (cs.filter cond).length := by
  have hsplit : cs.filter (fun client => client != ws && cond client)
      = (cs.filter cond).filter (fun client => client != ws) := by
    rw [List.filter_filter]
  have hmem1 : ws ∈ cs.filter cond := List.mem_filter.mpr ⟨hmem, hcond⟩
  rw [hsplit, ← List.Nodup.erase_eq_filter (hnd.filter _) ws]
  exact List.length_erase_add_one hmem1

/-- C2: an inbound message from socket `ws` that parses to a value of type
`mouse_position` is sent exactly once to every registered `OPEN` socket other
than `ws`, and not at all to `ws` nor to any other socket; every message sent
is the object `{type: 'mouse_position', data}` whose `data` is the `data`
property of the inbound object as it is (absent when the inbound object has
none). So when `ws` is one of the N registered open sockets, N - 1 messages are
sent, to N - 1 distinct sockets. -/
theorem mouse_position_excludes_sender (parse : String → Except JsError Json) (h : Hub)
    (ws : ConnId) (message : String) (v : Json)
    (hnd : h.wssClients.Nodup)
    (hparse : parse message = .ok v)
    (htype : getProp v "type" = .ok (some (.str "mouse_position"))) :
    ∃ kvs, v = .obj kvs ∧ getProp v "data" = .ok (kvs.lookup "data") ∧
      (∀ c, ((onMessage parse h ws message).2.map Send.target).count c
          = if c ∈ h.wssClients ∧ (c ≠ ws ∧ h.readyState c = OPEN) then 1 else 0) ∧
      ((onMessage parse h ws message).2.map Send.target).count ws = 0 ∧
      (∀ d, kvs.lookup "data" = some d → ∀ s ∈ (onMessage parse h ws message).2,
          s.payload = .obj [("type", .str "mouse_position"), ("data", d)]) ∧
      (kvs.lookup "data" = none → ∀ s ∈ (onMessage parse h ws message).2,
          s.payload = .obj [("type", .str "mouse_position")]) ∧
      (ws ∈ h.wssClients → h.readyState ws = OPEN →
          (onMessage parse h ws message).2.length + 1
            = (h.wssClients.filter (fun client => h.readyState client == OPEN)).length) ∧
      (onMessage parse h ws message).1 = h := by
  obtain ⟨kvs, rfl⟩ := getProp_type_obj v _ htype
  have htype1 : kvs.lookup "type" = some (.str "mouse_position") := by
    simpa [getProp] using htype
  have hrun := onMessage_mouse parse h ws message kvs hparse htype1
  have hcount : ∀ c, ((onMessage parse h ws message).2.map Send.target).count c
      = if c ∈ h.wssClients ∧ (c ≠ ws ∧ h.readyState c = OPEN) then 1 else 0 := by
    intro c
    rw [hrun]
    simp only [forEachSend_count _ _ _ hnd, Bool.and_eq_true, bne_iff_ne, ne_eq, beq_iff_eq]
  refine ⟨kvs, rfl, rfl, hcount, ?_, ?_, ?_, ?_, ?_⟩
  · rw [hcount ws]
    simp
  · intro d hd s hs
    rw [hrun, hd] at hs
    exact forEachSend_payload _ _ _ s hs
  · intro hd s hs
    rw [hrun, hd] at hs
    exact forEachSend_payload _ _ _ s hs
  · intro hmem hopen
    rw [hrun]
    simp only [forEachSend, List.length_map]
    exact length_filter_skip h.wssClients (fun client => h.readyState client == OPEN) ws hnd hmem
      (by simpa using hopen)
  · rw [hrun]

/-- Witness of C2: socket 1 sends a pointer message to the sample hub. -/
theorem mouse_position_excludes_sender_witness :
    ∃ kvs, sampleMouse = .obj kvs ∧ getProp sampleMouse "data" = .ok (kvs.lookup "data") ∧
      (∀ c, ((onMessage sampleParse sampleHub 1 "mouse").2.map Send.target).count c
          = if c ∈ sampleHub.wssClients ∧ (c ≠ 1 ∧ sampleHub.readyState c = OPEN)
            then 1 else 0) ∧
      ((onMessage sampleParse sampleHub 1 "mouse").2.map Send.target).count 1 = 0 ∧
      (∀ d, kvs.lookup "data" = some d → ∀ s ∈ (onMessage sampleParse sampleHub 1 "mouse").2,
          s.payload = .obj [("type", .str "mouse_position"), ("data", d)]) ∧
      (kvs.lookup "data" = none → ∀ s ∈ (onMessage sampleParse sampleHub 1 "mouse").2,
          s.payload = .obj [("type", .str "mouse_position")]) ∧
      ((1 : ConnId) ∈ sampleHub.wssClients → sampleHub.readyState 1 = OPEN →
          (onMessage sampleParse sampleHub 1 "mouse").2.length + 1
            = (sampleHub.wssClients.filter
                (fun client => sampleHub.readyState client == OPEN)).length) ∧
      (onMessage sampleParse sampleHub 1 "mouse").1 = sampleHub :=
  mouse_position_excludes_sender sampleParse sampleHub 1 "mouse" sampleMouse (by decide) rfl rfl

/-! ## Admission -/

theorem mem_setAdd (s : List ConnId) (x c : ConnId) : c ∈ setAdd s x ↔ c ∈ s ∨ c = x := by
  unfold setAdd
  split
  · constructor
    · intro hc
      exact Or.inl hc
    · rintro (hc | rfl)
      · exact hc
      · assumption
  · simp

theorem onConnection_store (h : Hub) (ws : ConnId) :
    (onConnection h ws).1.activeHyperbeamSession = h.activeHyperbeamSession := by
  cases hs : h.activeHyperbeamSession <;> simp [onConnection, hs]

/-- C3: admitting a socket `ws` puts it into the registry next to the sockets
already there, leaves the store as it is, and sends in the same step exactly
the one message `{type: 'session_info', data: D}` to `ws` when the store holds
`D`, and no message at all when the store is none; no socket other than `ws`
is sent anything. -/
theorem admission_unicast (h : Hub) (ws : ConnId) :
    (∀ c, c ∈ (onConnection h ws).1.wssClients ↔ c ∈ h.wssClients ∨ c = ws) ∧
    (∀ c, c ∈ (onConnection h ws).1.clients ↔ c ∈ h.clients ∨ c = ws) ∧
    (onConnection h ws).1.activeHyperbeamSession = h.activeHyperbeamSession ∧
    (∀ D, h.activeHyperbeamSession = some D →
      (onConnection h ws).2.map Send.target = [ws] ∧
      (onConnection h ws).2.map Send.payload
        = [.obj [("type", .str "session_info"),
                 ("data", .obj [("sessionId", .str D.sessionId),
                                ("embedUrl", .str D.embedUrl)])]]) ∧
    (h.activeHyperbeamSession = none → (onConnection h ws).2 = []) ∧
    (∀ c, c ≠ ws → ((onConnection h ws).2.map Send.target).count c = 0) := by
  refine ⟨?_, ?_, ?_, ?_, ?_, ?_⟩
  · intro c
    cases hs : h.activeHyperbeamSession <;> simp [onConnection, hs, mem_setAdd]
  · intro c
    cases hs : h.activeHyperbeamSession <;> simp [onConnection, hs, mem_setAdd]
  · cases hs : h.activeHyperbeamSession <;> simp [onConnection, hs]
  · intro D hD
    simp [onConnection, hD, envelope, Session.toJson]
  · intro hnone
    simp [onConnection, hnone]
  · intro c hc
    cases hs : h.activeHyperbeamSession
    · simp [onConnection, hs]
    · simp [onConnection, hs, List.count_cons, hc.symm]

/-! ## Dropped messages -/

theorem onMessage_hub (parse : String → Except JsError Json) (h : Hub) (ws : ConnId)
    (message : String) : (onMessage parse h ws message).1 = h := by
  unfold onMessage
  split <;> rfl

theorem onMessage_parse_error (parse : String → Except JsError Json) (h : Hub) (ws : ConnId)
    (message : String) (e : JsError) (hparse : parse message = .error e) :
    onMessage parse h ws message = (h, []) := by
  simp [onMessage, onMessageTry, hparse, bind, Except.bind]

theorem onMessage_other_type (parse : String → Except JsError Json) (h : Hub) (ws : ConnId)
    (message : String) (v : Json) (hparse : parse message = .ok v)
    (hchat : getProp v "type" ≠ .ok (some (.str "chat_message")))
    (hmouse : getProp v "type" ≠ .ok (some (.str "mouse_position"))) :
    onMessage parse h ws message = (h, []) := by
  cases hty : getProp v "type" with
  | error e => simp [onMessage, onMessageTry, hparse, hty, bind, Except.bind]
  | ok ty =>
    rw [hty] at hchat hmouse
    have hs1 : strictString ty ≠ some "chat_message" := by
      intro hs
      apply hchat
      unfold strictString at hs
      split at hs
      · simp only [Option.some.injEq] at hs
        rw [hs]
      · exact absurd hs (by simp)
    have hs2 : strictString ty ≠ some "mouse_position" := by
      intro hs
      apply hmouse
      unfold strictString at hs
      split at hs
      · simp only [Option.some.injEq] at hs
        rw [hs]
      · exact absurd hs (by simp)
    simp only [onMessage, onMessageTry, hparse, hty, bind, Except.bind]
    rfl

/-- C9: a payload that `JSON.parse` rejects, or that parses to a value whose
`type` is neither `'chat_message'` nor `'mouse_position'` (no `type`, an unknown
one, `session_info`, `session_destroyed`, or a value such as `null` whose
`type` cannot even be read), makes the message handler send nothing; the
handler completes with a result, and the registry, the store and the socket
states are what they were. -/
theorem malformed_input_dropped (parse : String → Except JsError Json) (h : Hub) (ws : ConnId)
    (message : String)
    (hbad : (∃ e, parse message = .error e) ∨
      ∃ v, parse message = .ok v ∧
        getProp v "type" ≠ .ok (some (.str "chat_message")) ∧
        getProp v "type" ≠ .ok (some (.str "mouse_position"))) :
    (onMessage parse h ws message).2 = [] ∧
    (onMessage parse h ws message).1.clients = h.clients ∧
    (onMessage parse h ws message).1.wssClients = h.wssClients ∧
    (onMessage parse h ws message).1.activeHyperbeamSession = h.activeHyperbeamSession ∧
    (onMessage parse h ws message).1 = h := by
  have hrun : onMessage parse h ws message = (h, []) := by
    rcases hbad with ⟨e, he⟩ | ⟨v, hv, hchat, hmouse⟩
    · exact onMessage_parse_error parse h ws message e he
    · exact onMessage_other_type parse h ws message v hv hchat hmouse
  rw [hrun]
  exact ⟨rfl, rfl, rfl, rfl, rfl⟩

/-- Witness of C9: a text that is not JSON, sent by socket 1 while a session is
active. -/
theorem malformed_input_dropped_witness :
    (onMessage sampleParse sampleActiveHub 1 "not json").2 = [] ∧
    (onMessage sampleParse sampleActiveHub 1 "not json").1.clients = sampleActiveHub.clients ∧
    (onMessage sampleParse sampleActiveHub 1 "not json").1.wssClients
      = sampleActiveHub.wssClients ∧
    (onMessage sampleParse sampleActiveHub 1 "not json").1.activeHyperbeamSession
      = sampleActiveHub.activeHyperbeamSession ∧
    (onMessage sampleParse sampleActiveHub 1 "not json").1 = sampleActiveHub :=
  malformed_input_dropped sampleParse sampleActiveHub 1 "not json"
    (Or.inl ⟨"SyntaxError", rfl⟩)

/-! ## Destroying a session -/

theorem jsToString_str (s : String) : jsToString (.str s) = s := by
  simp [jsToString]

theorem destroySession_match (axiosDelete : String → Except JsError Unit) (sid : String)
    (h : Hub) (D : Session) (hne : sid ≠ "") (hD : h.activeHyperbeamSession = some D)
    (hid : D.sessionId = sid) (hok : axiosDelete sid = .ok ()) :
    destroySession axiosDelete (some (.str sid)) h
      = ⟨h.setSession none,
         forEachSend h.wssClients (fun client => h.readyState client == OPEN)
           (envelope "session_destroyed" none),
         ⟨200, true, none, none, some ("Sessão " ++ sid ++ " destruída."), none⟩,
         [.delete sid true]⟩ := by
  simp [destroySession, jsFalsy, strictEqString, jsToString_str, hne, hok, hD, hid,
    Hub.setSession]

theorem destroySession_unmatched (axiosDelete : String → Except JsError Unit) (sid : String)
    (h : Hub) (hne : sid ≠ "")
    (hun : ∀ D, h.activeHyperbeamSession = some D → D.sessionId ≠ sid)
    (hok : axiosDelete sid = .ok ()) :
    destroySession axiosDelete (some (.str sid)) h
      = ⟨h, [], ⟨200, true, none, none, some ("Sessão " ++ sid ++ " destruída."), none⟩,
         [.delete sid true]⟩ := by
  cases hs : h.activeHyperbeamSession with
  | none => simp [destroySession, jsFalsy, jsToString_str, hne, hok, hs]
  | some D =>
    simp [destroySession, jsFalsy, strictEqString, jsToString_str, hne, hok, hs, hun D hs]

theorem destroySession_error (axiosDelete : String → Except JsError Unit) (sid : String)
    (h : Hub) (hne : sid ≠ "") (e : JsError) (herr : axiosDelete sid = .error e) :
    destroySession axiosDelete (some (.str sid)) h
      = ⟨h, [], failure 500 "Falha ao destruir sessão Hyperbeam.", [.delete sid false]⟩ := by
  simp [destroySession, jsFalsy, jsToString_str, hne, herr]

theorem destroySession_empty (axiosDelete : String → Except JsError Unit) (h : Hub) :
    destroySession axiosDelete (some (.str "")) h
      = ⟨h, [], failure 400 "ID da sessão é necessário.", []⟩ := by
  simp [destroySession, jsFalsy]

theorem destroySession_registry (axiosDelete : String → Except JsError Unit)
    (sessionId : Option Json) (h : Hub) :
    (destroySession axiosDelete sessionId h).hub.wssClients = h.wssClients ∧
    (destroySession axiosDelete sessionId h).hub.clients = h.clients := by
  unfold destroySession
  repeat' split
  all_goals exact ⟨rfl, rfl⟩

theorem except_unit_cases (r : Except JsError Unit) : r = .ok () ∨ ∃ e, r = .error e := by
  cases r with
  | ok u => exact Or.inl rfl
  | error e => exact Or.inr ⟨e, rfl⟩

theorem destroy_registry_unchanged (axiosDelete : String → Except JsError Unit) (sid : String)
    (h : Hub) (hne : sid ≠ "") :
    (destroySession axiosDelete (some (.str sid)) h).hub.wssClients = h.wssClients ∧
    (destroySession axiosDelete (some (.str sid)) h).hub.clients = h.clients := by
  rcases except_unit_cases (axiosDelete sid) with hok | ⟨e, herr⟩
  · by_cases hcase : ∃ D, h.activeHyperbeamSession = some D ∧ D.sessionId = sid
    · obtain ⟨D, hD, hid⟩ := hcase
      rw [destroySession_match axiosDelete sid h D hne hD hid hok]
      exact ⟨rfl, rfl⟩
    · rw [destroySession_unmatched axiosDelete sid h hne
        (fun D hD hid => hcase ⟨D, hD, hid⟩) hok]
      exact ⟨rfl, rfl⟩
  · rw [destroySession_error axiosDelete sid h hne e herr]
    exact ⟨rfl, rfl⟩

/-- C4: for a non-empty `sessionId`, `destroySession` clears the store and sends
`{type: 'session_destroyed'}` exactly once to every registered `OPEN` socket
(and to no other) when the store holds a descriptor with that `sessionId` and
the teardown request succeeds. In every other case (store none, another
identifier, teardown failed) the store is what it was and nothing is sent. So
the store changes or a message goes out only in the first case. The registry
is never touched. -/
theorem destroy_session_guard (axiosDelete : String → Except JsError Unit) (sid : String)
    (h : Hub) (hne : sid ≠ "") (hnd : h.wssClients.Nodup) :
    (((∃ D, h.activeHyperbeamSession = some D ∧ D.sessionId = sid) ∧ axiosDelete sid = .ok ()) →
      (destroySession axiosDelete (some (.str sid)) h).hub.activeHyperbeamSession = none ∧
      (∀ c, (((destroySession axiosDelete (some (.str sid)) h).sends).map Send.target).count c
          = if c ∈ h.wssClients ∧ h.readyState c = OPEN then 1 else 0) ∧
      (∀ s ∈ (destroySession axiosDelete (some (.str sid)) h).sends,
          s.payload = .obj [("type", .str "session_destroyed")])) ∧
    (¬ ((∃ D, h.activeHyperbeamSession = some D ∧ D.sessionId = sid) ∧
          axiosDelete sid = .ok ()) →
      (destroySession axiosDelete (some (.str sid)) h).hub.activeHyperbeamSession
          = h.activeHyperbeamSession ∧
      (destroySession axiosDelete (some (.str sid)) h).sends = []) ∧
    (((destroySession axiosDelete (some (.str sid)) h).hub.activeHyperbeamSession
          ≠ h.activeHyperbeamSession ∨
        (destroySession axiosDelete (some (.str sid)) h).sends ≠ []) →
      (∃ D, h.activeHyperbeamSession = some D ∧ D.sessionId = sid) ∧
        axiosDelete sid = .ok ()) ∧
    (destroySession axiosDelete (some (.str sid)) h).hub.wssClients = h.wssClients ∧
    (destroySession axiosDelete (some (.str sid)) h).hub.clients = h.clients := by
  have hother : ¬ ((∃ D, h.activeHyperbeamSession = some D ∧ D.sessionId = sid) ∧
        axiosDelete sid = .ok ()) →
      (destroySession axiosDelete (some (.str sid)) h).hub = h ∧
      (destroySession axiosDelete (some (.str sid)) h).sends = [] := by
    intro hnot
    rcases except_unit_cases (axiosDelete sid) with hok | ⟨e, herr⟩
    · have hun : ∀ D, h.activeHyperbeamSession = some D → D.sessionId ≠ sid :=
        fun D hD hid => hnot ⟨⟨D, hD, hid⟩, hok⟩
      rw [destroySession_unmatched axiosDelete sid h hne hun hok]
      exact ⟨rfl, rfl⟩
    · rw [destroySession_error axiosDelete sid h hne e herr]
      exact ⟨rfl, rfl⟩
  refine ⟨?_, ?_, ?_, ?_, ?_⟩
  · rintro ⟨⟨D, hD, hid⟩, hok⟩
    rw [destroySession_match axiosDelete sid h D hne hD hid hok]
    refine ⟨rfl, ?_, ?_⟩
    · intro c
      simp only [forEachSend_count _ _ _ hnd, beq_iff_eq]
    · intro s hs
      exact forEachSend_payload _ _ _ s hs
  · intro hnot
    obtain ⟨hhub, hsends⟩ := hother hnot
    exact ⟨by rw [hhub], hsends⟩
  · intro hchg
    by_contra hnot
    obtain ⟨hhub, hsends⟩ := hother hnot
    rcases hchg with hc | hc
    · exact hc (by rw [hhub])
    · exact hc hsends
  · by_cases hcase : (∃ D, h.activeHyperbeamSession = some D ∧ D.sessionId = sid) ∧
        axiosDelete sid = .ok ()
    · obtain ⟨⟨D, hD, hid⟩, hok⟩ := hcase
      rw [destroySession_match axiosDelete sid h D hne hD hid hok]
      rfl
    · rw [(hother hcase).1]
  · by_cases hcase : (∃ D, h.activeHyperbeamSession = some D ∧ D.sessionId = sid) ∧
        axiosDelete sid = .ok ()
    · obtain ⟨⟨D, hD, hid⟩, hok⟩ := hcase
      rw [destroySession_match axiosDelete sid h D hne hD hid hok]
      rfl
    · rw [(hother hcase).1]

/-- Witness of C4: the active session of the sample hub is destroyed. -/
theorem destroy_session_guard_witness :
    (((∃ D, sampleActiveHub.activeHyperbeamSession = some D ∧ D.sessionId = "vm-1") ∧
        deleteAnswer true "vm-1" = .ok ()) →
      (destroySession (deleteAnswer true) (some (.str "vm-1")) sampleActiveHub).hub.activeHyperbeamSession
        = none ∧
      (∀ c, (((destroySession (deleteAnswer true) (some (.str "vm-1")) sampleActiveHub).sends).map
            Send.target).count c
          = if c ∈ sampleActiveHub.wssClients ∧ sampleActiveHub.readyState c = OPEN
            then 1 else 0) ∧
      (∀ s ∈ (destroySession (deleteAnswer true) (some (.str "vm-1")) sampleActiveHub).sends,
          s.payload = .obj [("type", .str "session_destroyed")])) ∧
    (¬ ((∃ D, sampleActiveHub.activeHyperbeamSession = some D ∧ D.sessionId = "vm-1") ∧
          deleteAnswer true "vm-1" = .ok ()) →
      (destroySession (deleteAnswer true) (some (.str "vm-1")) sampleActiveHub).hub.activeHyperbeamSession
          = sampleActiveHub.activeHyperbeamSession ∧
      (destroySession (deleteAnswer true) (some (.str "vm-1")) sampleActiveHub).sends = []) ∧
    (((destroySession (deleteAnswer true) (some (.str "vm-1")) sampleActiveHub).hub.activeHyperbeamSession
          ≠ sampleActiveHub.activeHyperbeamSession ∨
        (destroySession (deleteAnswer true) (some (.str "vm-1")) sampleActiveHub).sends ≠ []) →
      (∃ D, sampleActiveHub.activeHyperbeamSession = some D ∧ D.sessionId = "vm-1") ∧
        deleteAnswer true "vm-1" = .ok ()) ∧
    (destroySession (deleteAnswer true) (some (.str "vm-1")) sampleActiveHub).hub.wssClients
      = sampleActiveHub.wssClients ∧
    (destroySession (deleteAnswer true) (some (.str "vm-1")) sampleActiveHub).hub.clients
      = sampleActiveHub.clients :=
  destroy_session_guard (deleteAnswer true) "vm-1" sampleActiveHub (by decide) (by decide)

/-- C5 as stated fails: with the store none, and with the store holding another
identifier, a destroy request whose teardown the provisioning service accepts
is answered with status 200 and `success: true`. -/
theorem destroy_unmatched_reports_success :
    sampleHub.activeHyperbeamSession = none ∧
    (destroySession (deleteAnswer true) (some (.str "vm-9")) sampleHub).res
      = ⟨200, true, none, none, some "Sessão vm-9 destruída.", none⟩ ∧
    sampleActiveHub.activeHyperbeamSession = some sampleSession ∧
    sampleSession.sessionId ≠ "vm-9" ∧
    (destroySession (deleteAnswer true) (some (.str "vm-9")) sampleActiveHub).res.success = true := by
  refine ⟨rfl, ?_, rfl, by decide, ?_⟩
  · rw [destroySession_unmatched (deleteAnswer true) "vm-9" sampleHub (by decide)
      (by intro D hD; cases hD) rfl]
    decide
  · rw [destroySession_unmatched (deleteAnswer true) "vm-9" sampleActiveHub (by decide)
      (by intro D hD; cases hD; decide) rfl]

/-- C5 amended: when the store is none or holds another identifier, the caller
of `destroySession` gets a failure (`success: false` with an error text) when
the identifier is empty (status 400) or the teardown request fails (status
500), and `success: true` when the teardown request succeeds; in all three
cases the hub is left as it was and nothing is sent. -/
theorem destroy_unmatched_result (axiosDelete : String → Except JsError Unit) (sid : String)
    (h : Hub)
    (hun : h.activeHyperbeamSession = none ∨
      ∃ D, h.activeHyperbeamSession = some D ∧ D.sessionId ≠ sid) :
    (sid = "" →
      (destroySession axiosDelete (some (.str sid)) h).res
        = failure 400 "ID da sessão é necessário.") ∧
    (sid ≠ "" → (∃ e, axiosDelete sid = .error e) →
      (destroySession axiosDelete (some (.str sid)) h).res
        = failure 500 "Falha ao destruir sessão Hyperbeam.") ∧
    (sid ≠ "" → axiosDelete sid = .ok () →
      (destroySession axiosDelete (some (.str sid)) h).res.success = true ∧
      (destroySession axiosDelete (some (.str sid)) h).res.status = 200) ∧
    (destroySession axiosDelete (some (.str sid)) h).hub = h ∧
    (destroySession axiosDelete (some (.str sid)) h).sends = [] := by
  have hun1 : ∀ D, h.activeHyperbeamSession = some D → D.sessionId ≠ sid := by
    intro D hD
    rcases hun with hnone | ⟨D1, hD1, hne1⟩
    · rw [hnone] at hD
      cases hD
    · rw [hD1] at hD
      cases hD
      exact hne1
  by_cases hsid : sid = ""
  · subst hsid
    rw [destroySession_empty]
    exact ⟨fun _ => rfl, fun hc => absurd rfl hc, fun hc => absurd rfl hc, rfl, rfl⟩
  · rcases except_unit_cases (axiosDelete sid) with hok | ⟨e, herr⟩
    · rw [destroySession_unmatched axiosDelete sid h hsid hun1 hok]
      refine ⟨fun hc => absurd hc hsid, ?_, fun _ _ => ⟨rfl, rfl⟩, rfl, rfl⟩
      rintro _ ⟨e, herr⟩
      rw [hok] at herr
      cases herr
    · rw [destroySession_error axiosDelete sid h hsid e herr]
      refine ⟨fun hc => absurd hc hsid, fun _ _ => rfl, ?_, rfl, rfl⟩
      intro _ hok
      rw [herr] at hok
      cases hok

/-- Witness of C5 amended: the store is none and the teardown is accepted. -/
theorem destroy_unmatched_result_witness :
    (("vm-9" : String) = "" →
      (destroySession (deleteAnswer true) (some (.str "vm-9")) sampleHub).res
        = failure 400 "ID da sessão é necessário.") ∧
    (("vm-9" : String) ≠ "" → (∃ e, deleteAnswer true "vm-9" = .error e) →
      (destroySession (deleteAnswer true) (some (.str "vm-9")) sampleHub).res
        = failure 500 "Falha ao destruir sessão Hyperbeam.") ∧
    (("vm-9" : String) ≠ "" → deleteAnswer true "vm-9" = .ok () →
      (destroySession (deleteAnswer true) (some (.str "vm-9")) sampleHub).res.success = true ∧
      (destroySession (deleteAnswer true) (some (.str "vm-9")) sampleHub).res.status = 200) ∧
    (destroySession (deleteAnswer true) (some (.str "vm-9")) sampleHub).hub = sampleHub ∧
    (destroySession (deleteAnswer true) (some (.str "vm-9")) sampleHub).sends = [] :=
  destroy_unmatched_result (deleteAnswer true) "vm-9" sampleHub (Or.inl rfl)

/-! ## Creating a session -/

theorem createSession_idle (axiosDelete : String → Except JsError Unit)
    (axiosPost : Except JsError VmData) (h : Hub) (hnone : h.activeHyperbeamSession = none) :
    createSession axiosDelete axiosPost h = createSessionPost axiosPost h [] := by
  simp [createSession, hnone]

theorem createSession_delete_ok (axiosDelete : String → Except JsError Unit)
    (axiosPost : Except JsError VmData) (h : Hub) (D : Session)
    (hD : h.activeHyperbeamSession = some D) (hok : axiosDelete D.sessionId = .ok ()) :
    createSession axiosDelete axiosPost h
      = createSessionPost axiosPost (h.setSession none) [.delete D.sessionId true] := by
  simp [createSession, hD, hok]

theorem createSession_delete_error (axiosDelete : String → Except JsError Unit)
    (axiosPost : Except JsError VmData) (h : Hub) (D : Session) (e : JsError)
    (hD : h.activeHyperbeamSession = some D) (herr : axiosDelete D.sessionId = .error e) :
    createSession axiosDelete axiosPost h
      = ⟨h, [], failure 500 "Falha ao criar sessão Hyperbeam.", [.delete D.sessionId false]⟩ := by
  simp [createSession, hD, herr]

theorem createSession_success (axiosDelete : String → Except JsError Unit) (d : VmData)
    (h : Hub) (hdel : ∀ D, h.activeHyperbeamSession = some D → axiosDelete D.sessionId = .ok ()) :
    (createSession axiosDelete (.ok d) h).hub = h.setSession (some ⟨d.vmId, d.embedUrl⟩) ∧
    (createSession axiosDelete (.ok d) h).sends
      = forEachSend h.wssClients (fun client => h.readyState client == OPEN)
          (envelope "session_info" (some (Session.toJson ⟨d.vmId, d.embedUrl⟩))) ∧
    (createSession axiosDelete (.ok d) h).res
      = ⟨200, true, some d.vmId, some d.embedUrl, none, none⟩ := by
  cases hs : h.activeHyperbeamSession with
  | none =>
    rw [createSession_idle axiosDelete _ h hs]
    exact ⟨rfl, rfl, rfl⟩
  | some D =>
    rw [createSession_delete_ok axiosDelete _ h D hs (hdel D hs)]
    exact ⟨rfl, rfl, rfl⟩

/-- C6: when every provisioning call made by `createSession` succeeds and the
new session comes back as `{vmId, embedUrl}`, the store ends holding exactly
`{sessionId: vmId, embedUrl}`, the message `{type: 'session_info'}` carrying
that descriptor is sent exactly once to every registered `OPEN` socket (and to
no other), and the caller gets status 200 with `success: true` and the same
`sessionId` and `embedUrl`. Hence after a second successful `createSession`
the store holds exactly the second call's descriptor. -/
theorem create_session_stores_descriptor (axiosDelete axiosDelete2 : String → Except JsError Unit)
    (d d2 : VmData) (h : Hub) (hnd : h.wssClients.Nodup)
    (hdel : ∀ D, h.activeHyperbeamSession = some D → axiosDelete D.sessionId = .ok ())
    (hdel2 : axiosDelete2 d.vmId = .ok ()) :
    (createSession axiosDelete (.ok d) h).hub.activeHyperbeamSession
      = some ⟨d.vmId, d.embedUrl⟩ ∧
    (∀ c, (((createSession axiosDelete (.ok d) h).sends).map Send.target).count c
        = if c ∈ h.wssClients ∧ h.readyState c = OPEN then 1 else 0) ∧
    (∀ s ∈ (createSession axiosDelete (.ok d) h).sends,
        s.payload = .obj [("type", .str "session_info"),
          ("data", .obj [("sessionId", .str d.vmId), ("embedUrl", .str d.embedUrl)])]) ∧
    (createSession axiosDelete (.ok d) h).res.status = 200 ∧
    (createSession axiosDelete (.ok d) h).res.success = true ∧
    (createSession axiosDelete (.ok d) h).res.sessionId = some d.vmId ∧
    (createSession axiosDelete (.ok d) h).res.embedUrl = some d.embedUrl ∧
    (createSession axiosDelete2 (.ok d2)
        (createSession axiosDelete (.ok d) h).hub).hub.activeHyperbeamSession
      = some ⟨d2.vmId, d2.embedUrl⟩ := by
  obtain ⟨hhub, hsends, hres⟩ := createSession_success axiosDelete d h hdel
  have hdel2a : ∀ D, (createSession axiosDelete (.ok d) h).hub.activeHyperbeamSession = some D →
      axiosDelete2 D.sessionId = .ok () := by
    intro D hD
    rw [hhub] at hD
    cases hD
    exact hdel2
  refine ⟨by rw [hhub]; rfl, ?_, ?_, by rw [hres], by rw [hres], by rw [hres], by rw [hres], ?_⟩
  · intro c
    rw [hsends]
    simp only [forEachSend_count _ _ _ hnd, beq_iff_eq]
  · intro s hs
    rw [hsends] at hs
    exact forEachSend_payload _ _ _ s hs
  · rw [(createSession_success axiosDelete2 d2 _ hdel2a).1]
    rfl

/-- Witness of C6: a session is created over the active one, then another. -/
theorem create_session_stores_descriptor_witness :
    (createSession (deleteAnswer true) (.ok ⟨"vm-2", "https://host/embed/vm-2"⟩)
        sampleActiveHub).hub.activeHyperbeamSession
      = some ⟨"vm-2", "https://host/embed/vm-2"⟩ ∧
    (createSession (deleteAnswer true) (.ok ⟨"vm-3", "https://host/embed/vm-3"⟩)
        (createSession (deleteAnswer true) (.ok ⟨"vm-2", "https://host/embed/vm-2"⟩)
          sampleActiveHub).hub).hub.activeHyperbeamSession
      = some ⟨"vm-3", "https://host/embed/vm-3"⟩ :=
  have hall := create_session_stores_descriptor (deleteAnswer true) (deleteAnswer true)
    ⟨"vm-2", "https://host/embed/vm-2"⟩ ⟨"vm-3", "https://host/embed/vm-3"⟩ sampleActiveHub
    (by decide) (fun _ _ => rfl) rfl
  ⟨hall.1, hall.2.2.2.2.2.2.2⟩

/-! ## Failing provisioning calls -/

/-- C7 as stated fails: when `createSession` has torn down the stored session
and the request for the new one then fails, the caller gets the failure but
the store, which held a descriptor before the call, is none after it. -/
theorem create_failure_clears_store :
    sampleActiveHub.activeHyperbeamSession = some sampleSession ∧
    (createSession (deleteAnswer true) (.error "Request failed")
        sampleActiveHub).res.success = false ∧
    (createSession (deleteAnswer true) (.error "Request failed")
        sampleActiveHub).hub.activeHyperbeamSession = none ∧
    (createSession (deleteAnswer true) (.error "Request failed")
        sampleActiveHub).hub.activeHyperbeamSession
      ≠ sampleActiveHub.activeHyperbeamSession := by
  have hrun := createSession_delete_ok (deleteAnswer true) (.error "Request failed")
    sampleActiveHub sampleSession rfl rfl
  rw [hrun]
  refine ⟨rfl, rfl, rfl, ?_⟩
  intro hc
  cases hc

/-- C7 amended: when a provisioning call of `createSession` or `destroySession`
fails, the handler completes and the caller gets status 500 with
`success: false` and an error text, and nothing is sent. The store after the
call equals the store before it when the failing call is the teardown request
(of either handler) or when the store was none; when `createSession` fails on
the request for the new session after a successful teardown of the stored one,
the store is none. -/
theorem provisioning_failure_result (axiosDelete : String → Except JsError Unit)
    (axiosPost : Except JsError VmData) (h : Hub) (e : JsError) :
    (∀ D, h.activeHyperbeamSession = some D → axiosDelete D.sessionId = .error e →
      (createSession axiosDelete axiosPost h).res
          = failure 500 "Falha ao criar sessão Hyperbeam." ∧
      (createSession axiosDelete axiosPost h).hub = h ∧
      (createSession axiosDelete axiosPost h).sends = []) ∧
    (h.activeHyperbeamSession = none → axiosPost = .error e →
      (createSession axiosDelete axiosPost h).res
          = failure 500 "Falha ao criar sessão Hyperbeam." ∧
      (createSession axiosDelete axiosPost h).hub = h ∧
      (createSession axiosDelete axiosPost h).sends = []) ∧
    (∀ D, h.activeHyperbeamSession = some D → axiosDelete D.sessionId = .ok () →
        axiosPost = .error e →
      (createSession axiosDelete axiosPost h).res
          = failure 500 "Falha ao criar sessão Hyperbeam." ∧
      (createSession axiosDelete axiosPost h).hub = h.setSession none ∧
      (createSession axiosDelete axiosPost h).hub.activeHyperbeamSession = none ∧
      (createSession axiosDelete axiosPost h).sends = []) ∧
    (∀ sid, sid ≠ "" → axiosDelete sid = .error e →
      (destroySession axiosDelete (some (.str sid)) h).res
          = failure 500 "Falha ao destruir sessão Hyperbeam." ∧
      (destroySession axiosDelete (some (.str sid)) h).hub = h ∧
      (destroySession axiosDelete (some (.str sid)) h).sends = []) ∧
    (failure 500 "Falha ao criar sessão Hyperbeam.").success = false ∧
    (failure 500 "Falha ao destruir sessão Hyperbeam.").success = false := by
  refine ⟨?_, ?_, ?_, ?_, rfl, rfl⟩
  · intro D hD herr
    rw [createSession_delete_error axiosDelete axiosPost h D e hD herr]
    exact ⟨rfl, rfl, rfl⟩
  · intro hnone hpost
    rw [createSession_idle axiosDelete axiosPost h hnone, hpost]
    exact ⟨rfl, rfl, rfl⟩
  · intro D hD hok hpost
    rw [createSession_delete_ok axiosDelete axiosPost h D hD hok, hpost]
    exact ⟨rfl, rfl, rfl, rfl⟩
  · intro sid hne herr
    rw [destroySession_error axiosDelete sid h hne e herr]
    exact ⟨rfl, rfl, rfl⟩

/-- C8 as stated fails: with a stored session whose teardown request fails,
`createSession` stops there, although the request for a new session would
succeed: the store keeps the old descriptor, nothing is sent, no create
request is made and the caller gets `success: false`. -/
theorem create_stops_on_teardown_failure :
    (createSession (deleteAnswer false) (.ok ⟨"vm-2", "https://host/embed/vm-2"⟩)
        sampleActiveHub).hub.activeHyperbeamSession = some sampleSession ∧
    (createSession (deleteAnswer false) (.ok ⟨"vm-2", "https://host/embed/vm-2"⟩)
        sampleActiveHub).sends = [] ∧
    (createSession (deleteAnswer false) (.ok ⟨"vm-2", "https://host/embed/vm-2"⟩)
        sampleActiveHub).res.success = false ∧
    (createSession (deleteAnswer false) (.ok ⟨"vm-2", "https://host/embed/vm-2"⟩)
        sampleActiveHub).calls = [.delete "vm-1" false] := by
  have hrun := createSession_delete_error (deleteAnswer false)
    (.ok ⟨"vm-2", "https://host/embed/vm-2"⟩) sampleActiveHub sampleSession "Request failed"
    rfl rfl
  rw [hrun]
  exact ⟨rfl, rfl, rfl, rfl⟩

/-- C8 amended: when the store holds a descriptor and the teardown request for
it fails during `createSession`, no new session is requested, whatever that
request would answer: the only provisioning call is the failed teardown, the
hub (store included) is left as it was, nothing is sent, and the caller gets
status 500 with `success: false`. -/
theorem create_aborts_on_teardown_failure (axiosDelete : String → Except JsError Unit)
    (axiosPost : Except JsError VmData) (h : Hub) (D : Session) (e : JsError)
    (hD : h.activeHyperbeamSession = some D) (herr : axiosDelete D.sessionId = .error e) :
    (createSession axiosDelete axiosPost h).calls = [.delete D.sessionId false] ∧
    (createSession axiosDelete axiosPost h).hub = h ∧
    (createSession axiosDelete axiosPost h).hub.activeHyperbeamSession = some D ∧
    (createSession axiosDelete axiosPost h).sends = [] ∧
    (createSession axiosDelete axiosPost h).res.status = 500 ∧
    (createSession axiosDelete axiosPost h).res.success = false ∧
    (createSession axiosDelete axiosPost h).res.error
      = some "Falha ao criar sessão Hyperbeam." := by
  rw [createSession_delete_error axiosDelete axiosPost h D e hD herr]
  exact ⟨rfl, rfl, hD, rfl, rfl, rfl, rfl⟩

/-- Witness of C8 amended: the teardown of the sample session is refused while
a new session would be granted. -/
theorem create_aborts_on_teardown_failure_witness :
    (createSession (deleteAnswer false) (.ok ⟨"vm-2", "https://host/embed/vm-2"⟩)
        sampleActiveHub).calls = [.delete sampleSession.sessionId false] ∧
    (createSession (deleteAnswer false) (.ok ⟨"vm-2", "https://host/embed/vm-2"⟩)
        sampleActiveHub).hub = sampleActiveHub ∧
    (createSession (deleteAnswer false) (.ok ⟨"vm-2", "https://host/embed/vm-2"⟩)
        sampleActiveHub).hub.activeHyperbeamSession = some sampleSession ∧
    (createSession (deleteAnswer false) (.ok ⟨"vm-2", "https://host/embed/vm-2"⟩)
        sampleActiveHub).sends = [] ∧
    (createSession (deleteAnswer false) (.ok ⟨"vm-2", "https://host/embed/vm-2"⟩)
        sampleActiveHub).res.status = 500 ∧
    (createSession (deleteAnswer false) (.ok ⟨"vm-2", "https://host/embed/vm-2"⟩)
        sampleActiveHub).res.success = false ∧
    (createSession (deleteAnswer false) (.ok ⟨"vm-2", "https://host/embed/vm-2"⟩)
        sampleActiveHub).res.error = some "Falha ao criar sessão Hyperbeam." :=
  create_aborts_on_teardown_failure (deleteAnswer false)
    (.ok ⟨"vm-2", "https://host/embed/vm-2"⟩) sampleActiveHub sampleSession "Request failed"
    rfl rfl

/-! ## The stored session is alive -/

theorem storeLive_of_session_eq (w w1 : World)
    (hs : w1.hub.activeHyperbeamSession = w.hub.activeHyperbeamSession)
    (hl : w1.live = w.live) (hw : storeLive w) : storeLive w1 := by
  unfold storeLive at *
  rw [hs, hl]
  exact hw

theorem storeLive_createSession (w : World) (dok : Bool) (created : Option VmData)
    (hw : storeLive w) :
    storeLive ⟨(createSession (deleteAnswer dok) (postAnswer created) w.hub).hub,
      (createSession (deleteAnswer dok) (postAnswer created) w.hub).calls.foldl applyCall
        w.live⟩ := by
  unfold storeLive at *
  cases hs : w.hub.activeHyperbeamSession with
  | none =>
    rw [createSession_idle _ _ _ hs]
    cases created with
    | none => simp [createSessionPost, postAnswer, applyCall, hs]
    | some d =>
      by_cases hmem : d.vmId ∈ w.live <;>
        simp [createSessionPost, postAnswer, applyCall, Hub.setSession, hmem]
  | some D =>
    rw [hs] at hw
    cases dok with
    | false =>
      rw [createSession_delete_error _ _ _ D "Request failed" hs rfl]
      simpa [applyCall, hs] using hw
    | true =>
      rw [createSession_delete_ok _ _ _ D hs rfl]
      cases created with
      | none => simp [createSessionPost, postAnswer, applyCall, Hub.setSession]
      | some d =>
        by_cases hmem : d.vmId ∈ w.live.filter (fun x => x != D.sessionId) <;>
          simp [createSessionPost, postAnswer, applyCall, Hub.setSession, hmem]

/-- A destroy request whose `sessionId` is not a string never matches the
stored session: whatever the provisioning service answers, the hub is left as
it was and nothing is sent. -/
theorem destroySession_non_string (axiosDelete : String → Except JsError Unit) (v : Json)
    (h : Hub) (hv : ∀ s, v ≠ .str s) :
    (destroySession axiosDelete (some v) h).hub = h ∧
    (destroySession axiosDelete (some v) h).sends = [] := by
  cases v with
  | str s => exact absurd rfl (hv s)
  | null => simp [destroySession, jsFalsy]
  | bool b =>
    unfold destroySession
    simp only [strictEqString]
    repeat' split
    all_goals first | exact ⟨rfl, rfl⟩ | contradiction
  | num n =>
    unfold destroySession
    simp only [strictEqString]
    repeat' split
    all_goals first | exact ⟨rfl, rfl⟩ | contradiction
  | arr xs =>
    unfold destroySession
    simp only [strictEqString]
    repeat' split
    all_goals first | exact ⟨rfl, rfl⟩ | contradiction
  | obj kvs =>
    unfold destroySession
    simp only [strictEqString]
    repeat' split
    all_goals first | exact ⟨rfl, rfl⟩ | contradiction

theorem storeLive_destroySession_none (w : World) (dok : Bool) (hw : storeLive w) :
    storeLive ⟨(destroySession (deleteAnswer dok) none w.hub).hub,
      (destroySession (deleteAnswer dok) none w.hub).calls.foldl applyCall w.live⟩ := by
  simpa [destroySession] using hw

theorem storeLive_destroySession (w : World) (sid : String) (dok : Bool)
    (hw : storeLive w) :
    storeLive ⟨(destroySession (deleteAnswer dok) (some (.str sid)) w.hub).hub,
      (destroySession (deleteAnswer dok) (some (.str sid)) w.hub).calls.foldl applyCall
        w.live⟩ := by
  by_cases hsid : sid = ""
  · subst hsid
    rw [destroySession_empty]
    simpa using hw
  · cases dok with
    | false =>
      rw [destroySession_error _ sid w.hub hsid "Request failed" rfl]
      simpa [applyCall] using hw
    | true =>
      unfold storeLive at *
      cases hs : w.hub.activeHyperbeamSession with
      | none =>
        rw [destroySession_unmatched _ sid w.hub hsid
          (by intro D hD; rw [hs] at hD; cases hD) rfl]
        simp [hs]
      | some D =>
        rw [hs] at hw
        by_cases hid : D.sessionId = sid
        · rw [destroySession_match _ sid w.hub D hsid hs hid rfl]
          simp [Hub.setSession]
        · rw [destroySession_unmatched _ sid w.hub hsid
            (by intro D1 hD1; rw [hs] at hD1; cases hD1; exact hid) rfl]
          have hmem : D.sessionId ∈ w.live := hw
          simp [hs, applyCall, List.mem_filter, hmem, hid]

theorem storeLive_step (parse : String → Except JsError Json) (w : World) (ev : Event)
    (hev : ev.stringRequest) (hw : storeLive w) : storeLive (step parse w ev) := by
  cases ev with
  | connection ws =>
    refine storeLive_of_session_eq w _ ?_ rfl hw
    exact (onConnection_store w.hub ws)
  | close ws => exact storeLive_of_session_eq w _ rfl rfl hw
  | message ws m =>
    refine storeLive_of_session_eq w _ ?_ rfl hw
    show (onMessage parse w.hub ws m).1.activeHyperbeamSession = _
    rw [onMessage_hub]
  | transport ws st => exact storeLive_of_session_eq w _ rfl rfl hw
  | createSession dok created => exact storeLive_createSession w dok created hw
  | destroySession sessionId dok =>
    cases sessionId with
    | none => exact storeLive_destroySession_none w dok hw
    | some v =>
      cases v with
      | str sid => exact storeLive_destroySession w sid dok hw
      | null => exact absurd hev (by simp [Event.stringRequest])
      | bool b => exact absurd hev (by simp [Event.stringRequest])
      | num n => exact absurd hev (by simp [Event.stringRequest])
      | arr xs => exact absurd hev (by simp [Event.stringRequest])
      | obj kvs => exact absurd hev (by simp [Event.stringRequest])

theorem storeLive_run (parse : String → Except JsError Json) (es : List Event) (w : World)
    (hes : ∀ ev ∈ es, ev.stringRequest) (hw : storeLive w) : storeLive (run parse w es) := by
  induction es generalizing w with
  | nil => exact hw
  | cons ev es ih =>
    exact ih (step parse w ev) (fun e he => hes e (List.mem_cons_of_mem ev he))
      (storeLive_step parse w ev (hes ev (List.mem_cons_self ev es)) hw)

/-- As long as every destroy request carries a string (or no) `sessionId`, the
store is none or holds a descriptor whose `sessionId` the provisioning service
has alive, in every state reached from the initial one, whatever the service
answers. -/
theorem storeLive_of_string_requests (parse : String → Except JsError Json) (es : List Event)
    (hes : ∀ ev ∈ es, ev.stringRequest) :
    (run parse World.initial es).hub.activeHyperbeamSession = none ∨
      ∃ D, (run parse World.initial es).hub.activeHyperbeamSession = some D ∧
        D.sessionId ∈ (run parse World.initial es).live := by
  have hlive : storeLive (run parse World.initial es) :=
    storeLive_run parse es World.initial hes trivial
  unfold storeLive at hlive
  cases hs : (run parse World.initial es).hub.activeHyperbeamSession with
  | none => exact Or.inl rfl
  | some D =>
    rw [hs] at hlive
    exact Or.inr ⟨D, rfl, hlive⟩

/-- C10 fails on the code: from the initial hub a session `vm-1` is created,
and the provisioning service then holds exactly `vm-1` alive. A destroy request
whose body is `{"sessionId": ["vm-1"]}` passes the `!sessionId` test and has
`DELETE /vm/vm-1` issued and accepted, so that the service holds nothing alive
any more, and the caller is answered with success; but the array is not `===`
the stored string, so the store is not cleared and nothing is sent. The state
reached holds a descriptor whose `sessionId` is not alive. -/
theorem destroy_array_id_keeps_dead_session :
    (createSession (deleteAnswer true) (.ok ⟨"vm-1", "https://host/embed/vm-1"⟩)
        Hub.initial).hub.activeHyperbeamSession
      = some ⟨"vm-1", "https://host/embed/vm-1"⟩ ∧
    (createSession (deleteAnswer true) (.ok ⟨"vm-1", "https://host/embed/vm-1"⟩)
        Hub.initial).calls.foldl applyCall [] = ["vm-1"] ∧
    (destroySession (deleteAnswer true) (some (.arr [.str "vm-1"]))
      (createSession (deleteAnswer true) (.ok ⟨"vm-1", "https://host/embed/vm-1"⟩)
        Hub.initial).hub).calls = [.delete "vm-1" true] ∧
    (destroySession (deleteAnswer true) (some (.arr [.str "vm-1"]))
      (createSession (deleteAnswer true) (.ok ⟨"vm-1", "https://host/embed/vm-1"⟩)
        Hub.initial).hub).res
      = ⟨200, true, none, none, some "Sessão vm-1 destruída.", none⟩ ∧
    (destroySession (deleteAnswer true) (some (.arr [.str "vm-1"]))
      (createSession (deleteAnswer true) (.ok ⟨"vm-1", "https://host/embed/vm-1"⟩)
        Hub.initial).hub).sends = [] ∧
    (destroySession (deleteAnswer true) (some (.arr [.str "vm-1"]))
      (createSession (deleteAnswer true) (.ok ⟨"vm-1", "https://host/embed/vm-1"⟩)
        Hub.initial).hub).hub.activeHyperbeamSession
      = some ⟨"vm-1", "https://host/embed/vm-1"⟩ ∧
    (destroySession (deleteAnswer true) (some (.arr [.str "vm-1"]))
      (createSession (deleteAnswer true) (.ok ⟨"vm-1", "https://host/embed/vm-1"⟩)
        Hub.initial).hub).calls.foldl applyCall ["vm-1"] = [] ∧
    ¬ storeLive
      ⟨(destroySession (deleteAnswer true) (some (.arr [.str "vm-1"]))
          (createSession (deleteAnswer true) (.ok ⟨"vm-1", "https://host/embed/vm-1"⟩)
            Hub.initial).hub).hub,
        (destroySession (deleteAnswer true) (some (.arr [.str "vm-1"]))
          (createSession (deleteAnswer true) (.ok ⟨"vm-1", "https://host/embed/vm-1"⟩)
            Hub.initial).hub).calls.foldl applyCall ["vm-1"]⟩ := by
  refine ⟨rfl, rfl, rfl, ?_, rfl, rfl, rfl, ?_⟩
  · decide
  · show ¬ ("vm-1" ∈ ([] : List String))
    decide

/-- The same as a run of events: after a session `vm-1` is created, a destroy request
whose body is `{"sessionId": ["vm-1"]}` passes the `!sessionId` test, has
`DELETE /vm/vm-1` issued and accepted, so that the provisioning service no
longer holds `vm-1` alive, and is answered with success; but the array is not
`===` the stored string, so the store is not cleared and nothing is sent. The
state reached holds a descriptor whose `sessionId` is not alive. -/
theorem run_reaches_dead_session :
    storeLive (run sampleParse World.initial
      [.createSession true (some ⟨"vm-1", "https://host/embed/vm-1"⟩)]) ∧
    (run sampleParse World.initial
      [.createSession true (some ⟨"vm-1", "https://host/embed/vm-1"⟩)]).live = ["vm-1"] ∧
    (destroySession (deleteAnswer true) (some (.arr [.str "vm-1"]))
      (run sampleParse World.initial
        [.createSession true (some ⟨"vm-1", "https://host/embed/vm-1"⟩)]).hub).calls
      = [.delete "vm-1" true] ∧
    (destroySession (deleteAnswer true) (some (.arr [.str "vm-1"]))
      (run sampleParse World.initial
        [.createSession true (some ⟨"vm-1", "https://host/embed/vm-1"⟩)]).hub).res
      = ⟨200, true, none, none, some "Sessão vm-1 destruída.", none⟩ ∧
    (destroySession (deleteAnswer true) (some (.arr [.str "vm-1"]))
      (run sampleParse World.initial
        [.createSession true (some ⟨"vm-1", "https://host/embed/vm-1"⟩)]).hub).sends = [] ∧
    (run sampleParse World.initial
      [.createSession true (some ⟨"vm-1", "https://host/embed/vm-1"⟩),
       .destroySession (some (.arr [.str "vm-1"])) true]).hub.activeHyperbeamSession
      = some ⟨"vm-1", "https://host/embed/vm-1"⟩ ∧
    (run sampleParse World.initial
      [.createSession true (some ⟨"vm-1", "https://host/embed/vm-1"⟩),
       .destroySession (some (.arr [.str "vm-1"])) true]).live = [] ∧
    ¬ storeLive (run sampleParse World.initial
      [.createSession true (some ⟨"vm-1", "https://host/embed/vm-1"⟩),
       .destroySession (some (.arr [.str "vm-1"])) true]) := by
  refine ⟨?_, rfl, rfl, ?_, rfl, rfl, rfl, ?_⟩
  · show "vm-1" ∈ ["vm-1"]
    decide
  · decide
  · show ¬ ("vm-1" ∈ ([] : List String))
    decide

/-! ## The registry is a set -/

theorem setAdd_nodup (s : List ConnId) (x : ConnId) (hnd : s.Nodup) : (setAdd s x).Nodup := by
  unfold setAdd
  split
  · exact hnd
  · rename_i hx
    exact List.Nodup.append hnd (List.nodup_singleton x) (by simpa using hx)

theorem wssClients_nodup_step (parse : String → Except JsError Json) (w : World) (ev : Event)
    (hnd : w.hub.wssClients.Nodup) : (step parse w ev).hub.wssClients.Nodup := by
  cases ev with
  | connection ws =>
    have hreg : (onConnection w.hub ws).1.wssClients = setAdd w.hub.wssClients ws := by
      cases hs : w.hub.activeHyperbeamSession <;> simp [onConnection, hs]
    show (onConnection w.hub ws).1.wssClients.Nodup
    rw [hreg]
    exact setAdd_nodup _ _ hnd
  | close ws => exact hnd.filter _
  | message ws m =>
    show (onMessage parse w.hub ws m).1.wssClients.Nodup
    rw [onMessage_hub]
    exact hnd
  | transport ws st => exact hnd
  | createSession dok created =>
    show (createSession (deleteAnswer dok) (postAnswer created) w.hub).hub.wssClients.Nodup
    cases hs : w.hub.activeHyperbeamSession with
    | none =>
      rw [createSession_idle _ _ _ hs]
      cases created <;> exact hnd
    | some D =>
      cases dok with
      | false =>
        rw [createSession_delete_error _ _ _ D "Request failed" hs rfl]
        exact hnd
      | true =>
        rw [createSession_delete_ok _ _ _ D hs rfl]
        cases created <;> exact hnd
  | destroySession sid dok =>
    show (destroySession (deleteAnswer dok) sid w.hub).hub.wssClients.Nodup
    rw [(destroySession_registry (deleteAnswer dok) sid w.hub).1]
    exact hnd

/-- In every reachable world `wss.clients` has no duplicate, as a `Set` must. -/
theorem wssClients_nodup_run (parse : String → Except JsError Json) (es : List Event) :
    (run parse World.initial es).hub.wssClients.Nodup := by
  have hgen : ∀ (es : List Event) (w : World), w.hub.wssClients.Nodup →
      (run parse w es).hub.wssClients.Nodup := by
    intro es
    induction es with
    | nil =>
      intro w hw
      exact hw
    | cons ev es ih =>
      intro w hw
      exact ih (step parse w ev) (wssClients_nodup_step parse w ev hw)
  exact hgen es World.initial List.nodup_nil

/-! ## Evaluations on the sample hub -/

/-- The chat message of socket 1 goes to the open sockets 1 and 3, not to the
closing socket 2. -/
theorem sample_chat_targets :
    (onMessage sampleParse sampleHub 1 "chat").2.map Send.target = [1, 3] := by
  rw [onMessage_chat sampleParse sampleHub 1 "chat" _ rfl rfl]
  decide

/-- The pointer message of socket 1 goes to socket 3 only. -/
theorem sample_mouse_targets :
    (onMessage sampleParse sampleHub 1 "mouse").2.map Send.target = [3] := by
  rw [onMessage_mouse sampleParse sampleHub 1 "mouse" _ rfl rfl]
  decide

/-- A client-sent `session_info` and a JSON `null` are dropped. -/
theorem sample_dropped :
    (onMessage sampleParse sampleHub 1 "info").2 = [] ∧
    (onMessage sampleParse sampleHub 1 "null").2 = [] := by
  constructor
  · rw [onMessage_other_type sampleParse sampleHub 1 "info" _ rfl
      (by simp [getProp, List.lookup]) (by simp [getProp, List.lookup])]
  · rw [onMessage_other_type sampleParse sampleHub 1 "null" _ rfl
      (by simp [getProp]) (by simp [getProp])]

/-! ## The identifier sent by `destroyVm` -/

theorem splitChars_ne_nil (sep : Char) (cs : List Char) : splitChars sep cs ≠ [] := by
  cases cs with
  | nil => simp [splitChars]
  | cons c cs =>
    unfold splitChars
    split
    · simp
    · split <;> simp

theorem splitChars_no_sep (sep : Char) (cs : List Char) (hno : sep ∉ cs) :
    splitChars sep cs = [cs] := by
  induction cs with
  | nil => rfl
  | cons c cs ih =>
    have hc : c ≠ sep := fun hc => hno (by simp [hc])
    have hcs : sep ∉ cs := fun hm => hno (List.mem_cons_of_mem c hm)
    simp [splitChars, hc, ih hcs]

theorem splitChars_append_sep (sep : Char) (a b : List Char) :
    splitChars sep (a ++ sep :: b) = splitChars sep a ++ splitChars sep b := by
  induction a with
  | nil => simp [splitChars]
  | cons c a ih =>
    by_cases hc : c = sep
    · simp [splitChars, hc, ih]
    · cases hsplit : splitChars sep a with
      | nil => exact absurd hsplit (splitChars_ne_nil sep a)
      | cons seg rest => simp [splitChars, hc, ih, hsplit]

theorem splitPop_tail (pre : List Char) (sid : String) (hslash : '/' ∉ sid.toList) :
    splitPop (String.mk (pre ++ '/' :: sid.toList)) = some sid := by
  unfold splitPop
  show (List.getLast? (splitChars '/' (pre ++ '/' :: sid.toList))).map String.mk = some sid
  rw [splitChars_append_sep, splitChars_no_sep '/' sid.toList hslash, List.getLast?_append]
  rfl

theorem clientOnMessage_session_info (parse : String → Except JsError Json) (st : ClientState)
    (data : String) (D : Session)
    (hparse : parse data = .ok (envelope "session_info" (some D.toJson))) :
    clientOnMessage parse st data
      = ⟨some (.str D.embedUrl), true,
         st.chatMessages ++ [systemMessage "Sessão Hyperbeam carregada."]⟩ := by
  simp [clientOnMessage, clientOnMessageTry, hparse, envelope, Session.toJson, getProp,
    getPropOf, strictString, List.lookup, bind, Except.bind, pure, Except.pure]

theorem destroyVm_request (fetchDestroy : String → Except JsError FetchReply)
    (st : ClientState) (url sid : String) (hurl : st.hyperbeamSessionUrl = some (.str url))
    (hne : url ≠ "") (hpop : splitPop url = some sid) (hsid : sid ≠ "") :
    (destroyVm fetchDestroy st).map Prod.snd = .ok (some sid) := by
  unfold destroyVm
  simp only [hurl, jsFalsy, hpop, falsy, beq_iff_eq, hne, hsid, if_false, Bool.false_eq_true]
  cases fetchDestroy sid with
  | error e => rfl
  | ok reply =>
    by_cases hr : (reply.ok && reply.success) = true
    · simp [hr, Except.map]
    · simp [hr, Except.map]

/-- When the stored embed URL ends in `/` followed by a non-empty identifier
without `/`, the identifier that `destroyVm` sends is that identifier. -/
theorem destroyVm_sends_url_tail (fetchDestroy : String → Except JsError FetchReply)
    (st : ClientState) (pre : List Char) (sid : String) (hsid : sid ≠ "")
    (hslash : '/' ∉ sid.toList)
    (hurl : st.hyperbeamSessionUrl = some (.str (String.mk (pre ++ '/' :: sid.toList)))) :
    (destroyVm fetchDestroy st).map Prod.snd = .ok (some sid) := by
  refine destroyVm_request fetchDestroy st _ sid hurl ?_ (splitPop_tail pre sid hslash) hsid
  intro hc
  have hdata := congrArg String.data hc
  simp at hdata

/-- On the sample session, whose embed URL ends in its identifier, `destroyVm`
sends that identifier. -/
theorem sample_destroyVm_sends_sessionId :
    (destroyVm sampleFetch
        (clientOnMessage sampleClientParse ClientState.initial
          "session_info sampleSession")).map Prod.snd
      = .ok (some sampleSession.sessionId) := by
  rfl

/-- C11 fails on the code: the server stores and delivers the descriptor
`{sessionId: '52f968cb', embedUrl: 'https://abc.hyperbeam.com/AAEjVhZj?token=xyz'}`,
the client keeps only the `embedUrl` of the `session_info` message, and
`destroyVm` then sends the text after the last `/` of that URL,
`'AAEjVhZj?token=xyz'`, which is not the descriptor's `sessionId`; the destroy
endpoint given that identifier leaves the store holding the session and sends
no `session_destroyed`. -/
theorem destroyVm_sends_wrong_identifier :
    (createSession (deleteAnswer true) (.ok sampleVm) sampleHub).hub.activeHyperbeamSession
      = some ⟨"52f968cb", "https://abc.hyperbeam.com/AAEjVhZj?token=xyz"⟩ ∧
    (createSession (deleteAnswer true) (.ok sampleVm) sampleHub).sends.map Send.payload
      = [envelope "session_info" (some (Session.toJson ⟨sampleVm.vmId, sampleVm.embedUrl⟩)),
         envelope "session_info" (some (Session.toJson ⟨sampleVm.vmId, sampleVm.embedUrl⟩))] ∧
    sampleClientParse "session_info sampleVm"
      = .ok (envelope "session_info" (some (Session.toJson ⟨sampleVm.vmId, sampleVm.embedUrl⟩))) ∧
    (clientOnMessage sampleClientParse ClientState.initial
        "session_info sampleVm").hyperbeamSessionUrl
      = some (.str "https://abc.hyperbeam.com/AAEjVhZj?token=xyz") ∧
    (destroyVm sampleFetch
        (clientOnMessage sampleClientParse ClientState.initial
          "session_info sampleVm")).map Prod.snd
      = .ok (some "AAEjVhZj?token=xyz") ∧
    ("AAEjVhZj?token=xyz" : String) ≠ "52f968cb" ∧
    (destroySession (deleteAnswer true) (some (.str "AAEjVhZj?token=xyz"))
        (createSession (deleteAnswer true) (.ok sampleVm) sampleHub).hub).hub.activeHyperbeamSession
      = some ⟨"52f968cb", "https://abc.hyperbeam.com/AAEjVhZj?token=xyz"⟩ ∧
    (destroySession (deleteAnswer true) (some (.str "AAEjVhZj?token=xyz"))
        (createSession (deleteAnswer true) (.ok sampleVm) sampleHub).hub).sends = [] := by
  refine ⟨rfl, rfl, rfl, rfl, rfl, by decide, rfl, rfl⟩

end Hypv
